import Mathlib

/-
Verification development for the ESP32 DHT20/AHT20 temperature-humidity
station firmware (src/src/main.cpp, second translation unit: the AHT20 +
watchdog variant).  The definitions below are a shallow embedding of the
C++ source: global configuration constants keep their source names, each
C function becomes a Lean function over an explicit state record, and the
side effects a call performs (watchdog feed, heap sample, restart, HTTP
dispatch, delays) are recorded as an ordered trace of actions.
Machine arithmetic: `millis()` returns a 32-bit unsigned long, so elapsed
time is computed modulo 2^32; `int` counters are modelled as ℤ; C floats
are modelled as a rational payload plus an explicit NaN flag.
-/

/-- A C `float` value as the firmware observes it: either NaN (the AHT20
fault marker recognised by `isnan`) or an ordinary numeric value, carried
as a rational. -/
structure CFloat where
  isNaN : Bool
  val : ℚ
deriving DecidableEq, Repr

/-- An IPv4 address, four octets, mirroring the Arduino `IPAddress`. -/
structure IPAddress where
  a : ℕ
  b : ℕ
  c : ℕ
  d : ℕ
deriving DecidableEq, Repr

/-- Source constant `IPAddress local_IP(192, 168, 1, 200)`. -/
def local_IP : IPAddress := ⟨192, 168, 1, 200⟩

/-- Source constant `IPAddress gateway(192, 168, 1, 1)`. -/
def gateway : IPAddress := ⟨192, 168, 1, 1⟩

/-- Source constant `IPAddress subnet(255, 255, 255, 0)`. -/
def subnet : IPAddress := ⟨255, 255, 255, 0⟩

/-- Source constant `IPAddress primaryDNS(192, 168, 1, 1)`. -/
def primaryDNS : IPAddress := ⟨192, 168, 1, 1⟩

/-- Source constant `IPAddress secondaryDNS(8, 8, 8, 8)`. -/
def secondaryDNS : IPAddress := ⟨8, 8, 8, 8⟩

/-- Source constant `const unsigned long wifiCheckInterval = 30000` (30 s). -/
def wifiCheckInterval : ℕ := 30000

/-- Source constant `const unsigned long ntpCheckInterval = 600000` (10 min). -/
def ntpCheckInterval : ℕ := 600000

/-- Source constant `const int maxReconnectCount = 5`: failures before restart. -/
def maxReconnectCount : ℤ := 5

/-- Unsigned 32-bit subtraction `a - b`, as C computes
`currentMillis - lastCheck` on `unsigned long` values. -/
def usub32 (a b : ℕ) : ℕ :=
  (a % 2 ^ 32 + 2 ^ 32 - b % 2 ^ 32) % 2 ^ 32

/-- One observable side effect performed during a call into the firmware.
A function's behaviour is its state transition plus the ordered list of
these actions it emits. -/
inductive Act where
  /-- Call `esp_task_wdt_reset()`: feed the task watchdog. -/
  | feedWatchdog
  /-- Call `WiFi.status()` from the network guardian due-check. -/
  | wifiStatusQuery
  /-- the bounded reconnect attempt: `WiFi.disconnect()`, `WiFi.begin`,
  then polling the status up to 10 × 1 s. -/
  | reconnectAttempt
  /-- Call `WiFi.config(ip, gw, sn, d1, d2)`: (re-)apply the static network
  configuration. -/
  | applyConfig (ip gw sn d1 d2 : IPAddress)
  /-- Call `ESP.restart()`: the device restart escalation (does not return). -/
  | restart
  /-- Call `configTime(...)`: re-issue the NTP time configuration. -/
  | ntpConfig
  /-- Call `ESP.getFreeHeap()`: sample the free heap. -/
  | heapSample
  /-- Call `ESP.getMinFreeHeap()`: sample the minimum free heap. -/
  | minHeapSample
  /-- the low-memory warning screen and log output. -/
  | memWarn
  /-- the "Syncing Time..." screen shown when `getLocalTime` fails. -/
  | showSyncing
  /-- Call `aht.getEvent(...)`: read the AHT20 sensor. -/
  | sensorRead
  /-- the "Sensor Error!" screen shown when the reading is NaN. -/
  | showSensorError
  /-- rendering the normal date/time/temperature/humidity screen. -/
  | render
  /-- Call `server.handleClient()`: drain pending HTTP work. -/
  | handleClient
  /-- Call `delay(ms)`. -/
  | sleep (ms : ℕ)
deriving DecidableEq, Repr

/-- The mutable state owned by the network guardian: globals
`lastWiFiCheck` and `reconnectCount` from main.cpp. -/
structure WifiState where
  lastWiFiCheck : ℕ
  reconnectCount : ℤ
deriving DecidableEq, Repr

/-- The environment one `checkWiFiConnection` call observes: the current
`millis()` value, whether `WiFi.status() == WL_CONNECTED` at the check,
and whether the bounded 10 × 1 s reconnect poll ends connected. -/
structure WifiEnv where
  now : ℕ
  connected : Bool
  reconnectSucceeds : Bool
deriving DecidableEq, Repr

/-- Shallow embedding of `checkWiFiConnection()` (main.cpp):
due-check every `wifiCheckInterval` ms; on disconnect, bounded reconnect;
on reconnect success reset `reconnectCount` and re-apply the static IP
configuration; on failure increment `reconnectCount` and, once it reaches
`maxReconnectCount`, show the failure screen, wait 2 s and restart. -/
def checkWiFiConnection (st : WifiState) (env : WifiEnv) :
    WifiState × List Act :=
  if wifiCheckInterval ≤ usub32 env.now st.lastWiFiCheck then
    let st0 : WifiState := { st with lastWiFiCheck := env.now }
    if env.connected then
      ({ st0 with reconnectCount := 0 }, [.wifiStatusQuery])
    else if env.reconnectSucceeds then
      ({ st0 with reconnectCount := 0 },
       [.wifiStatusQuery, .reconnectAttempt,
        .applyConfig local_IP gateway subnet primaryDNS secondaryDNS])
    else
      let rc : ℤ := st.reconnectCount + 1
      if maxReconnectCount ≤ rc then
        ({ st0 with reconnectCount := rc },
         [.wifiStatusQuery, .reconnectAttempt, .sleep 2000, .restart])
      else
        ({ st0 with reconnectCount := rc },
         [.wifiStatusQuery, .reconnectAttempt])
  else
    (st, [])

/-- Shallow embedding of `checkNTPSync()` (main.cpp): every
`ntpCheckInterval` ms re-issue `configTime` (the result of the follow-up
`getLocalTime` is only logged and changes no state). The state is the
global `lastNTPCheck`. -/
def checkNTPSync (lastNTPCheck : ℕ) (now : ℕ) : ℕ × List Act :=
  if ntpCheckInterval ≤ usub32 now lastNTPCheck then
    (now, [.ntpConfig])
  else
    (lastNTPCheck, [])

/-- The platform memory readings one `checkMemory` call observes. -/
structure MemEnv where
  freeHeap : ℕ
  minFreeHeap : ℕ
deriving DecidableEq, Repr

/-- Shallow embedding of `checkMemory()` (main.cpp): unconditionally
sample `ESP.getFreeHeap()` and `ESP.getMinFreeHeap()`; if the free heap
is strictly below 30000 bytes, show the warning screen and wait 2 s. -/
def checkMemory (env : MemEnv) : List Act :=
  [.heapSample, .minHeapSample] ++
    (if env.freeHeap < 30000 then [.memWarn, .sleep 2000] else [])

/-- The horizontal origin computed by `printCentered` (main.cpp):
`int16_t x = (128 - textWidth) / 2`, C integer division.  The width is
the driver measurement `display.getUTF8Width(text)`. -/
def printCenteredX (textWidth : ℤ) : ℤ := (128 - textWidth) / 2

/-- Decimal rendering of `n : ℤ` zero-padded to minimum width `w`, as C
`sprintf` does for `%02d` / `%04d` (the sign, if any, precedes the
padding). -/
def fmtPad (w : ℕ) (n : ℤ) : String :=
  if n < 0 then
    let s := toString (-n)
    "-" ++ String.mk (List.replicate (w - 1 - s.length) '0') ++ s
  else
    let s := toString n
    String.mk (List.replicate (w - s.length) '0') ++ s

/-- The fields of `struct tm` the firmware reads. -/
structure TimeInfo where
  tm_hour : ℤ
  tm_min : ℤ
  tm_sec : ℤ
  tm_year : ℤ
  tm_mon : ℤ
  tm_mday : ℤ
deriving DecidableEq, Repr

/-- Embeds `sprintf(currentTime, "%02d:%02d:%02d", tm_hour, tm_min, tm_sec)`
from the loop body. -/
def formatTimeStr (t : TimeInfo) : String :=
  fmtPad 2 t.tm_hour ++ ":" ++ fmtPad 2 t.tm_min ++ ":" ++ fmtPad 2 t.tm_sec

/-- Embeds `sprintf(currentDate, "%04d-%02d-%02d", tm_year + 1900, tm_mon + 1,
tm_mday)` from the loop body. -/
def formatDateStr (t : TimeInfo) : String :=
  fmtPad 4 (t.tm_year + 1900) ++ "-" ++ fmtPad 2 (t.tm_mon + 1) ++ "-" ++
    fmtPad 2 t.tm_mday

/-- Rounds a nonnegative rational to the nearest number of tenths, half
up: `roundTenths q = ⌊q * 10 + 1 / 2⌋`, computed on the numerator and
denominator so it evaluates by kernel reduction. -/
def roundTenths (q : ℚ) : ℤ :=
  Int.ediv (20 * q.num + (q.den : ℤ)) (2 * (q.den : ℤ))

/-- Arduino `String(value, 1)` (`dtostrf` with one decimal place) on a
non-NaN, rendered here on the rational payload: round to the nearest
tenth (half away from zero for the nonnegative values the firmware
serves) and print one fractional digit.  On NaN `dtostrf` prints
"nan". -/
def fmt1 (f : CFloat) : String :=
  if f.isNaN then "nan"
  else if f.val < 0 then
    let n : ℕ := (roundTenths (-f.val)).toNat
    "-" ++ toString (n / 10) ++ "." ++ toString (n % 10)
  else
    let n : ℕ := (roundTenths f.val).toNat
    toString (n / 10) ++ "." ++ toString (n % 10)

/-- The shared status globals consumed by the HTTP handlers
(main.cpp lines 530-534): `currentTemperature = 0.0`,
`currentHumidity = 0.0`, `currentTime = ""`, `currentDate = ""`,
`firstDataReady = false`. -/
structure SharedStatus where
  currentTemperature : CFloat
  currentHumidity : CFloat
  currentTime : String
  currentDate : String
  firstDataReady : Bool
deriving DecidableEq, Repr

/-- The initial values of the shared status globals at boot. -/
def initShared : SharedStatus :=
  { currentTemperature := ⟨false, 0⟩
    currentHumidity := ⟨false, 0⟩
    currentTime := ""
    currentDate := ""
    firstDataReady := false }

/-- One HTTP response as produced by `server.sendHeader` calls followed
by `server.send(code, contentType, body)`. -/
structure HttpResponse where
  code : ℕ
  contentType : String
  body : String
  headers : List (String × String)
deriving DecidableEq, Repr

/-- The three CORS headers every registered handler sends first. -/
def corsHeaders : List (String × String) :=
  [("Access-Control-Allow-Origin", "*"),
   ("Access-Control-Allow-Methods", "GET, POST, OPTIONS"),
   ("Access-Control-Allow-Headers", "Content-Type")]

/-- Shallow embedding of `handleTemperature()`:
`String(currentTemperature, 1) + "°C"` as text/plain with status 200. -/
def handleTemperature (st : SharedStatus) : HttpResponse :=
  { code := 200
    contentType := "text/plain"
    body := fmt1 st.currentTemperature ++ "°C"
    headers := corsHeaders }

/-- Shallow embedding of `handleHumidity()`:
`String(currentHumidity, 1) + "%"` as text/plain with status 200. -/
def handleHumidity (st : SharedStatus) : HttpResponse :=
  { code := 200
    contentType := "text/plain"
    body := fmt1 st.currentHumidity ++ "%"
    headers := corsHeaders }

/-- Shallow embedding of `handleJson()` (main.cpp lines 797-812): the
exact `String` concatenation building the JSON body, sent as
application/json with status 200. -/
def handleJson (st : SharedStatus) : HttpResponse :=
  { code := 200
    contentType := "application/json"
    body :=
      "\x7b" ++
      "\"temperature\": " ++ fmt1 st.currentTemperature ++ "," ++
      "\"humidity\": " ++ fmt1 st.currentHumidity ++ "," ++
      "\"time\": \"" ++ st.currentTime ++ "\"," ++
      "\"date\": \"" ++ st.currentDate ++ "\"," ++
      "\"status\": \"ok\"" ++
      "\x7d"
    headers := corsHeaders }

/-- The HTML body built by `handleRoot()` (main.cpp lines 686-756), the
exact `String` concatenation of the source; literal brace and apostrophe
characters are written as hex escapes. -/
def rootHtml (st : SharedStatus) : String :=
  "<!DOCTYPE html>\n" ++
  "<html>\n<head>\n" ++
  "<meta charset=\"UTF-8\">\n" ++
  "<meta name=\"viewport\" content=\"width=device-width, initial-scale=1.0\">\n" ++
  "<title>ESP32 温湿度监控</title>\n" ++
  "<style>\n" ++
  "body \x7b font-family: Arial, sans-serif; margin: 0; padding: 20px; " ++
  "background: linear-gradient(135deg, #667eea 0%, #764ba2 100%); " ++
  "min-height: 100vh; display: flex; justify-content: center; align-items: center; \x7d\n" ++
  ".container \x7b background: white; padding: 30px; border-radius: 20px; " ++
  "box-shadow: 0 10px 40px rgba(0,0,0,0.2); max-width: 400px; width: 100%; text-align: center; \x7d\n" ++
  "h1 \x7b color: #333; margin-bottom: 10px; font-size: 28px; \x7d\n" ++
  ".data-row \x7b display: flex; justify-content: space-around; margin: 20px 0; \x7d\n" ++
  ".data-item \x7b flex: 1; \x7d\n" ++
  ".data-value \x7b font-size: 48px; font-weight: bold; margin: 10px 0; \x7d\n" ++
  ".data-label \x7b font-size: 14px; color: #888; \x7d\n" ++
  ".hum-color \x7b color: #3498db; \x7d\n" ++
  ".time \x7b font-size: 24px; color: #666; margin: 10px 0; \x7d\n" ++
  ".date \x7b font-size: 18px; color: #888; margin-bottom: 20px; \x7d\n" ++
  ".icon \x7b font-size: 60px; margin-bottom: 10px; \x7d\n" ++
  ".refresh-info \x7b font-size: 12px; color: #aaa; margin-top: 20px; \x7d\n" ++
  ".unit \x7b font-size: 24px; \x7d\n" ++
  "</style>\n" ++
  "<script>\n" ++
  "const temperature = " ++ fmt1 st.currentTemperature ++ ";\n" ++
  "let tempColor = \x27\x27;\n" ++
  "if (temperature < 20) \x7b\n" ++
  "  tempColor = \x27#3498db\x27;\n" ++
  "\x7d else if (temperature >= 20 && temperature < 30) \x7b\n" ++
  "  const ratio = (temperature - 20) / 10;\n" ++
  "  const r = Math.round(241 + ratio * (230 - 241));\n" ++
  "  const g = Math.round(196 + ratio * (126 - 196));\n" ++
  "  const b = Math.round(15 + ratio * (34 - 15));\n" ++
  "  tempColor = \x27rgb(\x27 + r + \x27,\x27 + g + \x27,\x27 + b + \x27)\x27;\n" ++
  "\x7d else \x7b\n" ++
  "  tempColor = \x27#e74c3c\x27;\n" ++
  "\x7d\n" ++
  "document.addEventListener(\x27DOMContentLoaded\x27, function() \x7b\n" ++
  "  document.querySelectorAll(\x27.temp-color\x27).forEach(el => el.style.color = tempColor);\n" ++
  "\x7d);\n" ++
  "setTimeout(function()\x7blocation.reload();\x7d, 3000);\n" ++
  "</script>\n" ++
  "</head>\n<body>\n" ++
  "<div class=\"container\">\n" ++
  "<div class=\"icon\">🌡️</div>\n" ++
  "<h1>实时温湿度监控</h1>\n" ++
  "<div class=\"date\">" ++ st.currentDate ++ "</div>\n" ++
  "<div class=\"time\">" ++ st.currentTime ++ "</div>\n" ++
  "<div class=\"data-row\">\n" ++
  "<div class=\"data-item\">\n" ++
  "<div class=\"data-value temp-color\">" ++ fmt1 st.currentTemperature ++ "<span class=\"unit\">°C</span></div>\n" ++
  "<div class=\"data-label\">温度</div>\n" ++
  "</div>\n" ++
  "<div class=\"data-item\">\n" ++
  "<div class=\"data-value hum-color\">" ++ fmt1 st.currentHumidity ++ "<span class=\"unit\">%</span></div>\n" ++
  "<div class=\"data-label\">湿度</div>\n" ++
  "</div>\n" ++
  "</div>\n" ++
  "<div class=\"refresh-info\">页面每3秒自动刷新</div>\n" ++
  "</div>\n" ++
  "</body>\n</html>\n"

/-- Shallow embedding of `handleRoot()`: the HTML status page, sent as
text/html with status 200 after the CORS headers. -/
def handleRoot (st : SharedStatus) : HttpResponse :=
  { code := 200
    contentType := "text/html"
    body := rootHtml st
    headers := corsHeaders }

/-- The HTTP method enumeration of the ESP32 `WebServer` library. -/
inductive HTTPMethod where
  | HTTP_ANY
  | HTTP_GET
  | HTTP_HEAD
  | HTTP_POST
  | HTTP_PUT
  | HTTP_PATCH
  | HTTP_DELETE
  | HTTP_OPTIONS
deriving DecidableEq, Repr

/-- The Method string of `handleNotFound`:
`(server.method() == HTTP_GET) ? "GET" : "POST"`. -/
def methodName (m : HTTPMethod) : String :=
  if m = HTTPMethod.HTTP_GET then "GET" else "POST"

/-- A request as observed by `handleNotFound`: the URI, the method and
the argument list (`server.argName(i)`, `server.arg(i)`). -/
structure NotFoundRequest where
  uri : String
  method : HTTPMethod
  args : List (String × String)
deriving DecidableEq, Repr

/-- Shallow embedding of `handleNotFound()` (main.cpp lines 818-827):
a text/plain 404 whose body echoes the URI, the method line and the
argument list. -/
def handleNotFound (req : NotFoundRequest) : HttpResponse :=
  { code := 404
    contentType := "text/plain"
    body :=
      "404 Not Found\n\n" ++
      "URI: " ++ req.uri ++ "\n" ++
      "Method: " ++ methodName req.method ++ "\n" ++
      "Arguments: " ++ toString req.args.length ++ "\n" ++
      String.join (req.args.map (fun a => " " ++ a.1 ++ ": " ++ a.2 ++ "\n"))
    headers := [] }

/-- The whole-process mutable state one tick of `loop()` touches: the
shared status globals plus the guardian globals. -/
structure SysState where
  shared : SharedStatus
  lastWiFiCheck : ℕ
  lastNTPCheck : ℕ
  reconnectCount : ℤ
deriving DecidableEq, Repr

/-- The platform inputs one `loop()` tick observes: the `millis()`
clock, the WiFi and reconnect outcomes, the heap readings, whether
`getLocalTime` succeeds together with the time it returns, and the AHT20
sensor event values. -/
structure TickEnv where
  now : ℕ
  wifiConnected : Bool
  reconnectSucceeds : Bool
  freeHeap : ℕ
  minFreeHeap : ℕ
  timeAvailable : Bool
  timeinfo : TimeInfo
  sensorTemp : CFloat
  sensorHum : CFloat
deriving DecidableEq, Repr

/-- Shallow embedding of one `loop()` tick (main.cpp lines 965-1075), in
source order: feed the watchdog, run the three guardian due-checks (if
the network guardian escalates to `ESP.restart()` nothing after it
runs), return early with a 0.5 s delay if `getLocalTime` fails, read the
sensor and return early with a 2 s delay if either value is NaN,
otherwise write the four shared globals and `firstDataReady`, render,
call `server.handleClient()` and sleep the fixed 1 s quantum. -/
def loop (st : SysState) (env : TickEnv) : SysState × List Act :=
  let wifiR : WifiState × List Act :=
    checkWiFiConnection ⟨st.lastWiFiCheck, st.reconnectCount⟩
      ⟨env.now, env.wifiConnected, env.reconnectSucceeds⟩
  if Act.restart ∈ wifiR.2 then
    ({ st with lastWiFiCheck := wifiR.1.lastWiFiCheck,
               reconnectCount := wifiR.1.reconnectCount },
     Act.feedWatchdog :: wifiR.2)
  else
    let ntpR := checkNTPSync st.lastNTPCheck env.now
    let memActs := checkMemory ⟨env.freeHeap, env.minFreeHeap⟩
    let st1 : SysState :=
      { st with lastWiFiCheck := wifiR.1.lastWiFiCheck,
                reconnectCount := wifiR.1.reconnectCount,
                lastNTPCheck := ntpR.1 }
    let pre := Act.feedWatchdog :: (wifiR.2 ++ ntpR.2 ++ memActs)
    if !env.timeAvailable then
      (st1, pre ++ [.showSyncing, .sleep 500])
    else if env.sensorTemp.isNaN || env.sensorHum.isNaN then
      (st1, pre ++ [.sensorRead, .showSensorError, .sleep 2000])
    else
      let sh : SharedStatus :=
        { currentTemperature := env.sensorTemp
          currentHumidity := env.sensorHum
          currentTime := formatTimeStr env.timeinfo
          currentDate := formatDateStr env.timeinfo
          firstDataReady := true }
      ({ st1 with shared := sh },
       pre ++ [.sensorRead, .render, .handleClient, .sleep 1000])

/-- C7: the memory guardian warns exactly when the free heap is strictly
below the 30000-byte low-water mark; a free heap of exactly 30000 raises
no warning. -/
theorem checkMemory_warns_iff_below_mark :
    (∀ env : MemEnv, Act.memWarn ∈ checkMemory env ↔ env.freeHeap < 30000) ∧
      Act.memWarn ∉ checkMemory ⟨30000, 30000⟩ := by
  constructor
  · intro env
    by_cases h : env.freeHeap < 30000 <;> simp [checkMemory, h]
  · simp [checkMemory]

/-- C8: for a measured text width between 0 and 128, the x origin
computed by `printCentered` is `(128 - w) / 2` and lies between 0 and
`128 - w`. -/
theorem printCentered_origin_bounds (w : ℤ) (h0 : 0 ≤ w) (h1 : w ≤ 128) :
    printCenteredX w = (128 - w) / 2 ∧
      0 ≤ printCenteredX w ∧ printCenteredX w ≤ 128 - w := by
  refine ⟨rfl, ?_, ?_⟩ <;> simp only [printCenteredX] <;> omega

/-- Witness for C8 at width 13: the origin is 57 and 0 ≤ 57 ≤ 115. -/
theorem printCentered_origin_bounds_witness :
    printCenteredX 13 = (128 - 13) / 2 ∧
      0 ≤ printCenteredX 13 ∧ printCenteredX 13 ≤ 128 - 13 :=
  printCentered_origin_bounds 13 (by decide) (by decide)

/-- Every action the network guardian can emit in one call; in
particular it never emits `handleClient`, `render` or `sleep 1000`. -/
theorem checkWiFiConnection_act_cases (st : WifiState) (env : WifiEnv) :
    ∀ a ∈ (checkWiFiConnection st env).2,
      a = Act.wifiStatusQuery ∨ a = Act.reconnectAttempt ∨
      a = Act.applyConfig local_IP gateway subnet primaryDNS secondaryDNS ∨
      a = Act.sleep 2000 ∨ a = Act.restart := by
  intro a ha
  unfold checkWiFiConnection at ha
  dsimp only at ha
  repeat' split at ha
  all_goals simp_all
  all_goals tauto

/-- Every action the NTP guardian can emit in one call. -/
theorem checkNTPSync_act_cases (last now : ℕ) :
    ∀ a ∈ (checkNTPSync last now).2, a = Act.ntpConfig := by
  intro a ha
  unfold checkNTPSync at ha
  split at ha
  all_goals simp_all

/-- Every action the memory guardian can emit in one call. -/
theorem checkMemory_act_cases (env : MemEnv) :
    ∀ a ∈ checkMemory env,
      a = Act.heapSample ∨ a = Act.minHeapSample ∨
      a = Act.memWarn ∨ a = Act.sleep 2000 := by
  intro a ha
  unfold checkMemory at ha
  split at ha
  all_goals simp_all
  all_goals tauto

/-- C1: on a tick whose sensor reading is invalid (temperature or
humidity NaN), the loop returns before writing the shared status
globals: `currentTemperature`, `currentHumidity`, `currentTime` and
`currentDate` after the tick equal their values before it. -/
theorem loop_invalid_reading_preserves_shared (st : SysState) (env : TickEnv)
    (h : (env.sensorTemp.isNaN || env.sensorHum.isNaN) = true) :
    (loop st env).1.shared.currentTemperature = st.shared.currentTemperature ∧
    (loop st env).1.shared.currentHumidity = st.shared.currentHumidity ∧
    (loop st env).1.shared.currentTime = st.shared.currentTime ∧
    (loop st env).1.shared.currentDate = st.shared.currentDate := by
  have hs : (loop st env).1.shared = st.shared := by
    unfold loop
    by_cases h1 : Act.restart ∈
        (checkWiFiConnection ⟨st.lastWiFiCheck, st.reconnectCount⟩
          ⟨env.now, env.wifiConnected, env.reconnectSucceeds⟩).2
    · simp only [if_pos h1]
    · simp only [if_neg h1]
      by_cases h2 : env.timeAvailable = true
      · simp [h2, h]
      · simp [h2]
  rw [hs]
  exact ⟨rfl, rfl, rfl, rfl⟩

/-- A sample pre-tick system state: the boot values of all globals. -/
def bootState : SysState := ⟨initShared, 0, 0, 0⟩

/-- A tick environment whose sensor temperature reads NaN while time,
WiFi and memory are healthy. -/
def faultEnv : TickEnv :=
  { now := 0
    wifiConnected := true
    reconnectSucceeds := false
    freeHeap := 100000
    minFreeHeap := 100000
    timeAvailable := true
    timeinfo := ⟨14, 30, 0, 125, 6, 4⟩
    sensorTemp := ⟨true, 0⟩
    sensorHum := ⟨false, 50⟩ }

/-- Witness for C1: at the boot state and a NaN-temperature tick, the
four shared globals are unchanged. -/
theorem loop_invalid_reading_preserves_shared_witness :
    (loop bootState faultEnv).1.shared.currentTemperature =
        bootState.shared.currentTemperature ∧
      (loop bootState faultEnv).1.shared.currentHumidity =
        bootState.shared.currentHumidity ∧
      (loop bootState faultEnv).1.shared.currentTime =
        bootState.shared.currentTime ∧
      (loop bootState faultEnv).1.shared.currentDate =
        bootState.shared.currentDate :=
  loop_invalid_reading_preserves_shared bootState faultEnv (by decide)

/-- The network guardian state at boot: `reconnectCount = 0`,
`lastWiFiCheck = 0`. -/
def wifiInit : WifiState := ⟨0, 0⟩

/-- Runs `n` due-checks of the network guardian, each finding WiFi
disconnected and each bounded reconnect failing, the clock advancing by
one check interval per call; returns the final guardian state and the
total number of `ESP.restart()` invocations emitted. -/
def runFailingChecks : ℕ → WifiState → ℕ → WifiState × ℕ
  | 0, st, _ => (st, 0)
  | Nat.succ n, st, now =>
      let r := checkWiFiConnection st ⟨now, false, false⟩
      let rest := runFailingChecks n r.1 (now + wifiCheckInterval)
      (rest.1, r.2.count Act.restart + rest.2)

/-- C2: a due-check never restarts while the incremented failure counter
is still below `maxReconnectCount`; a failing due-check whose increment
reaches it restarts exactly once; and along five consecutive failing
due-checks from `reconnectCount = 0` no restart happens in the first
four while the fifth emits exactly one. -/
theorem wifi_restart_exactly_at_fifth_failure :
    (∀ (st : WifiState) (env : WifiEnv),
        st.reconnectCount + 1 < maxReconnectCount →
          (checkWiFiConnection st env).2.count Act.restart = 0) ∧
    (∀ (st : WifiState) (env : WifiEnv),
        wifiCheckInterval ≤ usub32 env.now st.lastWiFiCheck →
          env.connected = false → env.reconnectSucceeds = false →
          st.reconnectCount + 1 = maxReconnectCount →
          (checkWiFiConnection st env).2.count Act.restart = 1) ∧
    (∀ k, k < 5 → (runFailingChecks k wifiInit 30000).2 = 0) ∧
    (runFailingChecks 5 wifiInit 30000).2 = 1 := by
  refine ⟨?_, ?_, by decide, by decide⟩
  · intro st env h
    unfold checkWiFiConnection
    dsimp only
    repeat' split
    all_goals first | rfl | omega
  · intro st env hdue hconn hsucc hcount
    unfold checkWiFiConnection
    rw [if_pos hdue]
    simp only [hconn, hsucc, Bool.false_eq_true, if_false]
    rw [if_pos (le_of_eq hcount.symm)]
    rfl

/-- Witness for C2: a failing due-check at counter 2 emits no restart; a
failing due-check at counter 4 emits exactly one; the first four checks
of the five-failure scenario emit none. -/
theorem wifi_restart_exactly_at_fifth_failure_witness :
    (checkWiFiConnection ⟨0, 2⟩ ⟨30000, false, false⟩).2.count Act.restart = 0 ∧
      (checkWiFiConnection ⟨0, 4⟩ ⟨30000, false, false⟩).2.count Act.restart = 1 ∧
      (runFailingChecks 4 wifiInit 30000).2 = 0 :=
  ⟨wifi_restart_exactly_at_fifth_failure.1 ⟨0, 2⟩ ⟨30000, false, false⟩ (by decide),
   wifi_restart_exactly_at_fifth_failure.2.1 ⟨0, 4⟩ ⟨30000, false, false⟩
     (by decide) rfl rfl (by decide),
   wifi_restart_exactly_at_fifth_failure.2.2.1 4 (by decide)⟩

/-- C3 counterexample: on a concrete tick whose sensor reading is NaN
(and whose guardians are all quiet), `server.handleClient()` is not
reached and neither is the fixed 1-second inter-tick delay — the fault
branch returns after a 2-second error display instead, refuting the
claim that steps (e) and (f) still complete. -/
theorem loop_fault_tick_skips_handleClient_cex :
    faultEnv.sensorTemp.isNaN = true ∧
      Act.handleClient ∉ (loop bootState faultEnv).2 ∧
      Act.sleep 1000 ∉ (loop bootState faultEnv).2 ∧
      (loop bootState faultEnv).2.count (Act.sleep 2000) = 1 := by
  decide

/-- C3 as amended: on a tick whose time fetch succeeds and whose sensor
reading is NaN, provided the network guardian did not already escalate
to a restart, the tick still completes step (a) (watchdog feed) and step
(b) (all three guardian due-checks), then shows the sensor-error screen
and sleeps 2 s and returns; step (e) `server.handleClient()`, the normal
rendering and step (f) the fixed 1-second sleep are all skipped. -/
theorem loop_fault_tick_completes_watchdog_and_guardians
    (st : SysState) (env : TickEnv)
    (ht : env.timeAvailable = true)
    (hn : (env.sensorTemp.isNaN || env.sensorHum.isNaN) = true)
    (hr : Act.restart ∉
      (checkWiFiConnection ⟨st.lastWiFiCheck, st.reconnectCount⟩
        ⟨env.now, env.wifiConnected, env.reconnectSucceeds⟩).2) :
    (loop st env).2 =
      Act.feedWatchdog ::
        ((checkWiFiConnection ⟨st.lastWiFiCheck, st.reconnectCount⟩
            ⟨env.now, env.wifiConnected, env.reconnectSucceeds⟩).2 ++
          (checkNTPSync st.lastNTPCheck env.now).2 ++
          checkMemory ⟨env.freeHeap, env.minFreeHeap⟩ ++
          [Act.sensorRead, Act.showSensorError, Act.sleep 2000]) ∧
      Act.handleClient ∉ (loop st env).2 ∧
      Act.render ∉ (loop st env).2 ∧
      Act.sleep 1000 ∉ (loop st env).2 := by
  have htr : (loop st env).2 =
      Act.feedWatchdog ::
        ((checkWiFiConnection ⟨st.lastWiFiCheck, st.reconnectCount⟩
            ⟨env.now, env.wifiConnected, env.reconnectSucceeds⟩).2 ++
          (checkNTPSync st.lastNTPCheck env.now).2 ++
          checkMemory ⟨env.freeHeap, env.minFreeHeap⟩ ++
          [Act.sensorRead, Act.showSensorError, Act.sleep 2000]) := by
    unfold loop
    simp only [if_neg hr]
    simp [ht, hn, List.append_assoc]
  have hsub : ∀ a : Act, a ∈ (loop st env).2 →
      a ∈ ([Act.feedWatchdog, Act.wifiStatusQuery, Act.reconnectAttempt,
            Act.applyConfig local_IP gateway subnet primaryDNS secondaryDNS,
            Act.sleep 2000, Act.restart, Act.ntpConfig, Act.heapSample,
            Act.minHeapSample, Act.memWarn, Act.sensorRead,
            Act.showSensorError] : List Act) := by
    intro a hmem
    rw [htr] at hmem
    simp only [List.mem_cons, List.mem_append, List.not_mem_nil,
      or_false] at hmem
    rcases hmem with h | ((h | h) | h) | (h | h | h)
    · simp [h]
    · rcases checkWiFiConnection_act_cases _ _ a h with h | h | h | h | h <;>
        simp [h]
    · have h2 := checkNTPSync_act_cases _ _ a h
      simp [h2]
    · rcases checkMemory_act_cases _ a h with h | h | h | h <;> simp [h]
    · simp [h]
    · simp [h]
    · simp [h]
  refine ⟨htr, fun hmem => ?_, fun hmem => ?_, fun hmem => ?_⟩
  · exact absurd (hsub _ hmem) (by decide)
  · exact absurd (hsub _ hmem) (by decide)
  · exact absurd (hsub _ hmem) (by decide)

/-- Witness for C3 (amended): at the boot state and the NaN-temperature
tick environment the stated trace shape and omissions hold. -/
theorem loop_fault_tick_completes_watchdog_and_guardians_witness :
    (loop bootState faultEnv).2 =
      Act.feedWatchdog ::
        ((checkWiFiConnection
            ⟨bootState.lastWiFiCheck, bootState.reconnectCount⟩
            ⟨faultEnv.now, faultEnv.wifiConnected,
              faultEnv.reconnectSucceeds⟩).2 ++
          (checkNTPSync bootState.lastNTPCheck faultEnv.now).2 ++
          checkMemory ⟨faultEnv.freeHeap, faultEnv.minFreeHeap⟩ ++
          [Act.sensorRead, Act.showSensorError, Act.sleep 2000]) ∧
      Act.handleClient ∉ (loop bootState faultEnv).2 ∧
      Act.render ∉ (loop bootState faultEnv).2 ∧
      Act.sleep 1000 ∉ (loop bootState faultEnv).2 :=
  loop_fault_tick_completes_watchdog_and_guardians bootState faultEnv rfl
    (by decide) (by decide)

/-- The shared status after the spec's sample tick: temperature 25.0,
humidity 60.0, time "14:30:00", date "2025-07-04". -/
def jsonSampleState : SharedStatus :=
  { currentTemperature := ⟨false, 25⟩
    currentHumidity := ⟨false, 60⟩
    currentTime := "14:30:00"
    currentDate := "2025-07-04"
    firstDataReady := true }

/-- C4 counterexample: at the sample state, the body `handleJson` builds
is not the claimed compact string — the source writes a space after each
key's colon (`"\"temperature\": "` and so on). -/
theorem handleJson_claimed_body_cex :
    (handleJson jsonSampleState).body ≠
      "\x7b\"temperature\":25.0,\"humidity\":60.0,\"time\":\"14:30:00\",\"date\":\"2025-07-04\",\"status\":\"ok\"\x7d" := by
  decide

/-- C4 as amended: at the sample state, `/json` answers 200 with content
type application/json and exactly the body the source's concatenation
yields, which has one space after each key's colon. -/
theorem handleJson_sample_response :
    (handleJson jsonSampleState).code = 200 ∧
      (handleJson jsonSampleState).contentType = "application/json" ∧
      (handleJson jsonSampleState).body =
        "\x7b\"temperature\": 25.0,\"humidity\": 60.0,\"time\": \"14:30:00\",\"date\": \"2025-07-04\",\"status\": \"ok\"\x7d" := by
  refine ⟨rfl, rfl, ?_⟩
  decide

/-- C5 counterexample: two consecutive `checkMemory` calls perform the
`ESP.getFreeHeap()` sample twice, not at most once — the function has no
throttle gate at all, so two calls inside any interval both sample. -/
theorem checkMemory_twice_two_samples_cex :
    ¬ ((checkMemory ⟨50000, 50000⟩ ++ checkMemory ⟨50000, 50000⟩).count
        Act.heapSample ≤ 1) := by
  decide

/-- C5 as amended: `checkMemory` is unthrottled; every call performs the
free-heap sample exactly once, hence any two calls perform it exactly
twice. -/
theorem checkMemory_each_call_samples_once :
    (∀ env : MemEnv, (checkMemory env).count Act.heapSample = 1) ∧
      ∀ e1 e2 : MemEnv,
        (checkMemory e1 ++ checkMemory e2).count Act.heapSample = 2 := by
  have h1 : ∀ env : MemEnv, (checkMemory env).count Act.heapSample = 1 := by
    intro env
    unfold checkMemory
    split
    · rfl
    · rfl
  refine ⟨h1, fun e1 e2 => ?_⟩
  rw [List.count_append, h1, h1]

/-- C6: a due-check that finds WiFi disconnected and whose bounded
reconnect succeeds resets `reconnectCount` to 0 and re-applies the
static network configuration (IP, gateway, subnet and both DNS servers)
before returning. -/
theorem wifi_reconnect_success_resets_and_reapplies
    (st : WifiState) (env : WifiEnv)
    (hdue : wifiCheckInterval ≤ usub32 env.now st.lastWiFiCheck)
    (hconn : env.connected = false)
    (hsucc : env.reconnectSucceeds = true) :
    (checkWiFiConnection st env).1.reconnectCount = 0 ∧
      Act.applyConfig local_IP gateway subnet primaryDNS secondaryDNS ∈
        (checkWiFiConnection st env).2 := by
  unfold checkWiFiConnection
  rw [if_pos hdue]
  simp [hconn, hsucc]

/-- Witness for C6: a due-check at counter 3 with a successful reconnect
resets the counter and re-applies the configuration. -/
theorem wifi_reconnect_success_resets_and_reapplies_witness :
    (checkWiFiConnection ⟨0, 3⟩ ⟨30000, false, true⟩).1.reconnectCount = 0 ∧
      Act.applyConfig local_IP gateway subnet primaryDNS secondaryDNS ∈
        (checkWiFiConnection ⟨0, 3⟩ ⟨30000, false, true⟩).2 :=
  wifi_reconnect_success_resets_and_reapplies ⟨0, 3⟩ ⟨30000, false, true⟩
    (by decide) rfl rfl

/-- C9: queried before the first successful tick, every handler answers
200 built from the zeroed initial state: `/temperature` serves "0.0°C",
`/humidity` serves "0.0%", `/json` serves zeroed numbers, empty time and
date strings and the status field "ok", and `/` serves its HTML page. -/
theorem handlers_respond_before_first_tick :
    initShared.firstDataReady = false ∧
      (handleRoot initShared).code = 200 ∧
      (handleRoot initShared).contentType = "text/html" ∧
      (handleTemperature initShared).code = 200 ∧
      (handleTemperature initShared).body = "0.0°C" ∧
      (handleHumidity initShared).code = 200 ∧
      (handleHumidity initShared).body = "0.0%" ∧
      (handleJson initShared).code = 200 ∧
      (handleJson initShared).body =
        "\x7b\"temperature\": 0.0,\"humidity\": 0.0,\"time\": \"\",\"date\": \"\",\"status\": \"ok\"\x7d" := by
  refine ⟨rfl, rfl, rfl, rfl, ?_, rfl, ?_, rfl, ?_⟩ <;> decide

/-- C10: the Method line value of the 404 handler is "GET" exactly when
the request method is HTTP_GET, and "POST" for every other method. -/
theorem notFound_method_line :
    (∀ m : HTTPMethod, methodName m = "GET" ↔ m = HTTPMethod.HTTP_GET) ∧
      ∀ m : HTTPMethod, m ≠ HTTPMethod.HTTP_GET → methodName m = "POST" := by
  constructor
  · intro m
    cases m <;> simp [methodName]
  · intro m hm
    cases m <;> simp_all [methodName]

/-- Witness for C10: a PUT request's Method line reads "POST". -/
theorem notFound_method_line_witness :
    methodName HTTPMethod.HTTP_PUT = "POST" :=
  notFound_method_line.2 HTTPMethod.HTTP_PUT (by decide)
